import Mathlib

/-!
Verification of the audio-processing pipeline orchestrator
(`Processing_Pipeline.py` and `Custom_with_Vocals/script_debug.py`).

The embedding models the orchestration logic: segmentation arithmetic,
per-phase control flow, error absorption/propagation, and the batch
driver's exit behaviour.  External effects (librosa decoding, soundfile
writes, model invocations) are represented by explicit oracle parameters:
`load : Option (Nat × Nat)` is the result of `librosa.load` (sample count
and sample rate, `none` when decoding raises), and `Bool`-valued oracles
say which external calls raise an exception.
-/

namespace AudioPipeline

/-- Python's `str.endswith`: the suffix's characters are a suffix of the
string's characters.  The comparison is exact, hence case-sensitive. -/
def pyEndswith (s suffix : String) : Bool :=
  suffix.data.isSuffixOf s.data

/-- Python `range(0, stop, step)` for `step > 0`: the list
`[0, step, 2*step, ...]` of all multiples of `step` below `stop`. -/
def rangeStep (stop step : Nat) : List Nat :=
  (List.range ((stop + step - 1) / step)).map (· * step)

/-- One segment produced by `Phase02.split_audio`: a half-open sample
interval `[start, stop)` of the loaded waveform, together with the 1-based
index used in the segment's file name (`{base}_segment_{index}.wav`). -/
structure Segment where
  start : Nat
  stop : Nat
  index : Nat
  deriving Repr, DecidableEq

/-- The segment built at loop iteration `i` (the loop variable is a time
offset in seconds) in `Phase02.split_audio`:
`start = i * sr`, `end = min((i + segment_duration) * sr, len(audio))`,
file-name index `i // segment_duration + 1`. -/
def segOf (totalSamples sr S i : Nat) : Segment :=
  { start := i * sr
    stop := min ((i + S) * sr) totalSamples
    index := i / S + 1 }

/-- The loop bounds of `Phase02.split_audio`:
`range(0, int(total_duration), segment_duration)` where
`total_duration = librosa.get_duration(y=audio, sr=sr) = len(audio)/sr`
and `int` truncates, i.e. `totalSamples / sr` in natural division. -/
def splitIndices (totalSamples sr S : Nat) : List Nat :=
  rangeStep (totalSamples / sr) S

/-- `Phase02.split_audio` of `Custom_with_Vocals/script_debug.py`.
`load` is the outcome of `librosa.load` (`none`: the file is missing or
fails to decode, so the function returns `[]`); `writeFails i` says
whether `sf.write` raises at loop iteration `i`.  In this variant the
write sits in its own `try/except`, so a failed write only drops that
segment from the returned list and the loop continues. -/
def split_audio_debug (load : Option (Nat × Nat)) (S : Nat)
    (writeFails : Nat → Bool) : List Segment :=
  match load with
  | none => []
  | some (n, sr) =>
      (splitIndices n sr S).filterMap fun i =>
        if writeFails i then none else some (segOf n sr S i)

/-- The segment loop of `Phase02.split_audio` in `Processing_Pipeline.py`:
the whole body sits inside one `try`, so the first `sf.write` exception
escapes the loop (`.error ()`); otherwise the accumulated list is
returned. -/
def splitLoop (totalSamples sr S : Nat) (writeFails : Nat → Bool) :
    List Nat → Except Unit (List Segment)
  | [] => .ok []
  | i :: rest =>
      if writeFails i then .error ()
      else
        match splitLoop totalSamples sr S writeFails rest with
        | .ok segs => .ok (segOf totalSamples sr S i :: segs)
        | .error e => .error e

/-- `Phase02.split_audio` of `Processing_Pipeline.py`.  The surrounding
`except` handler turns any exception raised inside the loop into the
return value `[]`, so one failed segment write empties the whole
result. -/
def split_audio_pipeline (load : Option (Nat × Nat)) (S : Nat)
    (writeFails : Nat → Bool) : List Segment :=
  match load with
  | none => []
  | some (n, sr) =>
      match splitLoop n sr S writeFails (splitIndices n sr S) with
      | .ok segs => segs
      | .error _ => []

/-- `Phase01.separate_sources` (identical in both variants): iterate the
model identifiers in caller order and invoke `demucs_separate` for each.
There is no exception handling, so the first raising invocation aborts
the loop and the exception propagates to the caller.  Returns the list of
identifiers actually invoked and whether the loop completed without an
exception. -/
def separate_sources (models : List String) (modelFails : String → Bool) :
    List String × Bool :=
  match models with
  | [] => ([], true)
  | m :: rest =>
      if modelFails m then ([m], false)
      else
        let r := separate_sources rest modelFails
        (m :: r.1, r.2)

/-- In-memory representation of one stem returned by
`predict.separate`: either a `torch.Tensor` or a plain array of the given
dimensionality (`ndim`). -/
inductive StemData where
  | tensor (ndim : Nat)
  | array (ndim : Nat)
  deriving Repr, DecidableEq

/-- The shape test of `Phase03.separate_voices` in
`Custom_with_Vocals/script_debug.py`: a `torch.Tensor` is always accepted
(squeezed and converted), a plain array is accepted when `ndim` is 3
(batch axis squeezed) or 2; any other array dimensionality hits the
`else` branch, which logs a warning and `continue`s. -/
def recognizedShape : StemData → Bool
  | .tensor _ => true
  | .array 3 => true
  | .array 2 => true
  | .array _ => false

/-- `Phase03.separate_voices` of `Custom_with_Vocals/script_debug.py`,
restricted to the per-stem loop: for each `(instrument, data)` pair of
the model's mapping, an unrecognized shape is skipped (warning +
`continue`) and every recognized stem is persisted (the model returns
well-formed tensors for recognized shapes, so `sf.write` succeeds).
Returns the instrument names persisted, in iteration order. -/
def separate_voices_debug (stems : List (String × StemData)) : List String :=
  stems.filterMap fun s => if recognizedShape s.2 then some s.1 else none

/-- Whether `sf.write` accepts a stem's data in `Processing_Pipeline.py`'s
`Phase03.separate_voices`: a tensor is squeezed to a writable array, and
`soundfile` accepts only 1-D or 2-D array data — any other dimensionality
raises. -/
def writeOk : StemData → Bool
  | .tensor _ => true
  | .array n => n == 1 || n == 2

/-- `Phase03.separate_voices` of `Processing_Pipeline.py`, restricted to
the per-stem loop: there is no shape test, and the loop runs inside the
function's single `try`, so the first stem whose `sf.write` raises aborts
the remaining stems (the exception is caught outside the loop).  Returns
the instrument names persisted, in iteration order. -/
def separate_voices_pipeline : List (String × StemData) → List String
  | [] => []
  | (name, d) :: rest =>
      if writeOk d then name :: separate_voices_pipeline rest else []

/-- The file filter of Phase 4 (`Phase04.process_audio` in
`Custom_with_Vocals/script_debug.py`, and the Phase-4 loop of
`AudioProcessingPipeline.process_audio` in `Processing_Pipeline.py`):
keep the directory entries for which `file.endswith(".wav")` holds.
Python's `str.endswith` compares exactly, hence case-sensitively. -/
def phase04_select (listing : List String) : List String :=
  listing.filter fun f => pyEndswith f ".wav"

/-- Observable outcome of one `AudioProcessingPipeline.process_audio`
call: the returned status, the segments handed to Phase 3 (in order),
which of those Phase-3 calls raised internally (all are absorbed), the
files handed to Phase 4, and which of those enhancement calls raised
(also absorbed). -/
structure RunResult where
  success : Bool
  phase3Calls : List Segment
  phase3Raised : List Segment
  phase4Calls : List String
  phase4Raised : List String
  deriving Repr, DecidableEq

/-- `AudioProcessingPipeline.process_audio` of `Processing_Pipeline.py`.
Phase 1 runs first with no exception handling, so a model failure escapes
the method (`.error ()`).  Phase 2 then segments the (noise-reduced)
file; an empty segment list returns `False` before Phases 3 and 4 run.
Otherwise Phase 3 is invoked once per segment (its `try` absorbs every
exception: `p3Fails`), Phase 4 once per `.wav`-suffixed entry of the
Phase-3 output directory (`phase03Listing` is its contents when scanned;
`enhance_audio`'s `try` absorbs every exception: `p4Fails`), and the
method returns `True`. -/
def process_audio (models : List String) (modelFails : String → Bool)
    (load : Option (Nat × Nat)) (S : Nat) (writeFails : Nat → Bool)
    (p3Fails : Segment → Bool) (phase03Listing : List String)
    (p4Fails : String → Bool) : Except Unit RunResult :=
  if (separate_sources models modelFails).2 then
    let segments := split_audio_pipeline load S writeFails
    if segments.isEmpty then
      .ok { success := false, phase3Calls := [], phase3Raised := []
            phase4Calls := [], phase4Raised := [] }
    else
      let p4 := phase04_select phase03Listing
      .ok { success := true
            phase3Calls := segments
            phase3Raised := segments.filter p3Fails
            phase4Calls := p4
            phase4Raised := p4.filter p4Fails }
  else .error ()

/-- Projection of a run outcome to the reported status: `some b` when
`process_audio` returned `b`, `none` when it raised. -/
def runStatus (e : Except Unit RunResult) : Option Bool :=
  match e with
  | .ok r => some r.success
  | .error _ => none

/-- Environment of one `__main__` execution of `Processing_Pipeline.py`:
whether `--help`/`-h` was passed, whether `check_ffmpeg` found the
binary, the files returned by `get_audio_files`, whether loading the
VoiceFixer models raises, and per-file whether `process_audio` raises an
uncaught exception resp. returns `True`. -/
structure MainInput where
  helpFlag : Bool
  ffmpegFound : Bool
  audioFiles : List String
  preloadFails : Bool
  runRaises : String → Bool
  runSucceeds : String → Bool

/-- Exit status of `__main__` in `Processing_Pipeline.py`.  In order:
`--help` prints and exits 0; a missing FFmpeg exits 1; an empty file list
exits 1; a VoiceFixer load failure exits 1 (either `sys.exit(1)` in the
pre-load handler, or — because `AudioProcessingPipeline.__init__` also
constructs a `VoiceFixer` outside any handler — an uncaught exception,
which also terminates the interpreter with status 1).  An uncaught
exception escaping `pipeline.process_audio` (Phase 1 has no handler)
likewise exits 1.  Otherwise the loop finishes and the script falls off
the end: exit 0, regardless of `success_count` (the count feeds only the
final log lines). -/
def mainExit (inp : MainInput) : Nat :=
  if inp.helpFlag then 0
  else if !inp.ffmpegFound then 1
  else if inp.audioFiles.isEmpty then 1
  else if inp.preloadFails then 1
  else if inp.audioFiles.any inp.runRaises then 1
  else 0

/-- `Phase02.split_audio` in the normal case: the input decodes to
`totalSamples` samples at rate `sr` and every segment write succeeds.
Both variants return this list then (`split_pipeline_nofail`). -/
def splitNormal (totalSamples sr S : Nat) : List Segment :=
  split_audio_debug (some (totalSamples, sr)) S (fun _ => false)

/-! ### Helper lemmas -/

theorem filterMap_ite_none {α β : Type} (l : List α) (p : α → Bool) (f : α → β) :
    (l.filterMap fun a => if p a then none else some (f a)) =
      (l.filter fun a => !p a).map f := by
  induction l with
  | nil => rfl
  | cons a l ih =>
      by_cases h : p a <;> simp [List.filterMap_cons, List.filter_cons, h, ih]

theorem filterMap_ite_some {α β : Type} (l : List α) (p : α → Bool) (f : α → β) :
    (l.filterMap fun a => if p a then some (f a) else none) =
      (l.filter p).map f := by
  induction l with
  | nil => rfl
  | cons a l ih =>
      by_cases h : p a <;> simp [List.filterMap_cons, List.filter_cons, h, ih]

theorem separate_sources_ok_of_all (models : List String) (fails : String → Bool)
    (h : ∀ m ∈ models, fails m = false) :
    separate_sources models fails = (models, true) := by
  induction models with
  | nil => rfl
  | cons m rest ih =>
      have hm : fails m = false := h m (by simp)
      simp [separate_sources, hm, ih fun x hx => h x (by simp [hx])]

theorem splitLoop_ok_of_all (n sr S : Nat) (wf : Nat → Bool) (l : List Nat)
    (h : ∀ i ∈ l, wf i = false) :
    splitLoop n sr S wf l = .ok (l.map (segOf n sr S)) := by
  induction l with
  | nil => rfl
  | cons i rest ih =>
      have hi : wf i = false := h i (by simp)
      simp [splitLoop, hi, ih fun x hx => h x (by simp [hx])]

theorem splitLoop_error_of_any (n sr S : Nat) (wf : Nat → Bool) (l : List Nat)
    (h : l.any wf = true) :
    splitLoop n sr S wf l = .error () := by
  induction l with
  | nil => simp at h
  | cons i rest ih =>
      by_cases hi : wf i
      · simp [splitLoop, hi]
      · have hi2 : wf i = false := by simpa using hi
        rw [List.any_cons, hi2, Bool.false_or] at h
        simp [splitLoop, hi, ih h]

theorem splitNormal_eq (n sr S : Nat) :
    splitNormal n sr S = (splitIndices n sr S).map (segOf n sr S) := by
  have hfm : ∀ l : List Nat,
      l.filterMap (fun i => some (segOf n sr S i)) = l.map (segOf n sr S) := by
    intro l
    induction l with
    | nil => rfl
    | cons a l ih => simp [List.filterMap_cons, ih]
  simp [splitNormal, split_audio_debug, hfm]

theorem split_pipeline_nofail (n sr S : Nat) :
    split_audio_pipeline (some (n, sr)) S (fun _ => false) = splitNormal n sr S := by
  rw [splitNormal_eq]
  simp [split_audio_pipeline,
    splitLoop_ok_of_all n sr S _ (splitIndices n sr S) (fun _ _ => rfl)]

theorem splitNormal_length (n sr S : Nat) :
    (splitNormal n sr S).length = (n / sr + S - 1) / S := by
  simp [splitNormal_eq, splitIndices, rangeStep]

theorem splitNormal_get (n sr S : Nat) (hS : 0 < S) (k : Nat)
    (hk : k < (splitNormal n sr S).length) :
    (splitNormal n sr S)[k] =
      { start := k * (S * sr), stop := min ((k + 1) * (S * sr)) n, index := k + 1 } := by
  have hk' : k < ((n / sr + S - 1) / S) := by
    rw [← splitNormal_length n sr S]; exact hk
  have hmap : (splitNormal n sr S)[k] = segOf n sr S (k * S) := by
    simp [splitNormal_eq, splitIndices, rangeStep]
  have h1 : k * S * sr = k * (S * sr) := by ring
  have h2 : (k * S + S) * sr = (k + 1) * (S * sr) := by ring
  have h3 : k * S / S = k := Nat.mul_div_left k hS
  rw [hmap]
  simp [segOf, h1, h2, h3]

theorem rangeStep_zero (S : Nat) : rangeStep 0 S = [] := by
  match S with
  | 0 => rfl
  | s + 1 =>
      simp [rangeStep, Nat.div_eq_of_lt (Nat.lt_succ_self s)]

/-! ### Claim C1 -/

/-- C1 counterexample.  The claim says the split of an asset of duration
`D` yields `ceil(D / S)` segments.  Take an asset of 22050 samples at
44100 Hz, i.e. `D = 0.5` seconds, and `S = 60`: `ceil(D / S) = 1` — in
natural-number form `⌈22050 / (44100 * 60)⌉ = (22050 + 44100 * 60 - 1) /
(44100 * 60) = 1` — but both variants of `split_audio` produce no segment
at all, because the loop ranges over `int(total_duration) = 0`. -/
theorem C1_counterexample :
    split_audio_debug (some (22050, 44100)) 60 (fun _ => false) = [] ∧
    split_audio_pipeline (some (22050, 44100)) 60 (fun _ => false) = [] ∧
    (22050 + 44100 * 60 - 1) / (44100 * 60) = 1 := by
  refine ⟨by decide, by decide, by decide⟩

/-- C1 amended.  For a decoded asset of `n` samples at rate `sr` and a
positive segment duration `S`, `split_audio` (both variants, writes
succeeding) produces `ceil(floor(D) / S)` segments — `D = n / sr`, with
the duration truncated to whole seconds before the ceiling — not
`ceil(D / S)`.  Segment `i` (0-based) covers samples
`[i*S*sr, min((i+1)*S*sr, n))`, so start offsets are `0, S, 2S, ...`
seconds, end offsets never exceed the total sample count, and the file
name carries the 1-based index `i + 1`. -/
theorem C1_amended (n sr S : Nat) (hS : 0 < S) :
    (splitNormal n sr S).length = (n / sr + S - 1) / S ∧
    split_audio_pipeline (some (n, sr)) S (fun _ => false) = splitNormal n sr S ∧
    ∀ (k : Nat) (hk : k < (splitNormal n sr S).length),
      (splitNormal n sr S)[k] =
        { start := k * (S * sr), stop := min ((k + 1) * (S * sr)) n, index := k + 1 } ∧
      ((splitNormal n sr S)[k]).stop ≤ n := by
  refine ⟨splitNormal_length n sr S, split_pipeline_nofail n sr S, fun k hk => ⟨?_, ?_⟩⟩
  · exact splitNormal_get n sr S hS k hk
  · rw [splitNormal_get n sr S hS k hk]
    exact min_le_right _ _

/-- C1 witness: 180 samples at 2 Hz (`D = 90` s), `S = 60` gives
`ceil(90 / 60) = 2` segments. -/
theorem C1_witness : (splitNormal 180 2 60).length = 2 := by
  have h := (C1_amended 180 2 60 (by decide)).1
  norm_num at h
  exact h

/-! ### Claim C6 -/

/-- C6 counterexample.  The claim says the last segment always ends at
the total sample count.  Take 121 samples at 2 Hz (`D = 60.5` s) and
`S = 60`: one segment is produced and it ends at sample 120, strictly
below the total sample count 121 — the trailing half second is dropped
(and for a duration strictly below one second no segment covers anything
at all, see `C10_subsecond`). -/
theorem C6_counterexample :
    split_audio_debug (some (121, 2)) 60 (fun _ => false) =
      [{ start := 0, stop := 120, index := 1 }] ∧ 120 < 121 := by
  refine ⟨by decide, by decide⟩

/-- C6 amended.  Segments of one parent are contiguous and
non-overlapping — `end(i) = start(i+1)` for consecutive segments — and
the first segment starts at sample 0.  The last segment however ends at
`min(count * S * sr, total_samples)`, which falls short of the total
sample count when the duration has a fractional part and its integer
part is a multiple of `S` (the trailing fraction of a second is
dropped). -/
theorem C6_amended (n sr S : Nat) (hS : 0 < S) :
    (∀ (k : Nat) (h : k + 1 < (splitNormal n sr S).length),
        ((splitNormal n sr S)[k]).stop = ((splitNormal n sr S)[k + 1]).start) ∧
    (∀ h : 0 < (splitNormal n sr S).length, ((splitNormal n sr S)[0]).start = 0) ∧
    ∀ h : 0 < (splitNormal n sr S).length,
      ((splitNormal n sr S)[(splitNormal n sr S).length - 1]).stop =
        min ((splitNormal n sr S).length * (S * sr)) n := by
  refine ⟨fun k h => ?_, fun h => ?_, fun h => ?_⟩
  · have hk : k < (splitNormal n sr S).length := by omega
    rw [splitNormal_get n sr S hS k hk, splitNormal_get n sr S hS (k + 1) h]
    have hlen := splitNormal_length n sr S
    have h2 : (k + 2) * S ≤ n / sr + S - 1 := by
      rw [hlen] at h
      exact (Nat.le_div_iff_mul_le hS).mp (by omega)
    have h3 : (k + 1) * S < n / sr := by
      have e : (k + 2) * S = (k + 1) * S + S := by ring
      omega
    have h4 : (k + 1) * (S * sr) ≤ n :=
      calc (k + 1) * (S * sr) = (k + 1) * S * sr := by ring
        _ ≤ (n / sr) * sr := Nat.mul_le_mul_right sr (Nat.le_of_lt h3)
        _ ≤ n := Nat.div_mul_le_self n sr
    simpa using Nat.min_eq_left h4
  · rw [splitNormal_get n sr S hS 0 h]
    simp
  · have hk : (splitNormal n sr S).length - 1 < (splitNormal n sr S).length := by omega
    rw [splitNormal_get n sr S hS _ hk]
    have e : (splitNormal n sr S).length - 1 + 1 = (splitNormal n sr S).length := by omega
    rw [e]

/-- C6 witness: 240 samples at 2 Hz (`D = 120` s), `S = 60`: the first
segment's end equals the second segment's start. -/
theorem C6_witness :
    ((splitNormal 240 2 60).get ⟨0, by decide⟩).stop =
      ((splitNormal 240 2 60).get ⟨1, by decide⟩).start := by
  have h := (C6_amended 240 2 60 (by decide)).1 0 (by decide)
  exact h

/-! ### Claim C10 -/

/-- C10.  An asset that decodes to a duration strictly between 0 and 1
second (`0 < n < sr`) yields the empty segment list in both variants —
the loop ranges over `int(total_duration) = 0` — and the orchestrator
then abandons the run exactly as for a corrupt file: `process_audio`
returns `False` without any Phase-3 or Phase-4 invocation. -/
theorem C10_subsecond (models : List String) (modelFails : String → Bool)
    (n sr S : Nat) (wf : Nat → Bool) (p3 : Segment → Bool)
    (listing : List String) (p4 : String → Bool)
    (hpos : 0 < n) (hlt : n < sr)
    (h1 : ∀ m ∈ models, modelFails m = false) :
    split_audio_debug (some (n, sr)) S wf = [] ∧
    split_audio_pipeline (some (n, sr)) S wf = [] ∧
    process_audio models modelFails (some (n, sr)) S wf p3 listing p4 =
      .ok { success := false, phase3Calls := [], phase3Raised := []
            phase4Calls := [], phase4Raised := [] } := by
  have hidx : splitIndices n sr S = [] := by
    simp [splitIndices, Nat.div_eq_of_lt hlt, rangeStep_zero]
  have hdebug : split_audio_debug (some (n, sr)) S wf = [] := by
    simp [split_audio_debug, hidx]
  have hpipe : split_audio_pipeline (some (n, sr)) S wf = [] := by
    simp [split_audio_pipeline, hidx, splitLoop]
  refine ⟨hdebug, hpipe, ?_⟩
  have hsep : (separate_sources models modelFails).2 = true := by
    rw [separate_sources_ok_of_all models modelFails h1]
  simp [process_audio, hsep, hpipe]

/-- C10 witness: 22050 samples at 44100 Hz (half a second) with the
default model list and no external failure: the run is reported failed
with no downstream calls. -/
theorem C10_witness :
    process_audio ["htdemucs", "mdx_extra_q"] (fun _ => false)
        (some (22050, 44100)) 60 (fun _ => false) (fun _ => false) []
        (fun _ => false) =
      .ok { success := false, phase3Calls := [], phase3Raised := []
            phase4Calls := [], phase4Raised := [] } :=
  (C10_subsecond ["htdemucs", "mdx_extra_q"] (fun _ => false) 22050 44100 60
    (fun _ => false) (fun _ => false) [] (fun _ => false)
    (by decide) (by decide) (by decide)).2.2

/-! ### Claim C2 -/

/-- C2.  Whenever Phase 1 completes and the Segmenter returns the empty
sequence, `process_audio` reports the run as failed (`False`) and makes
no Phase-3 voice-separation call and no Phase-4 enhancement call. -/
theorem C2_empty_segments_abort (models : List String)
    (modelFails : String → Bool) (load : Option (Nat × Nat)) (S : Nat)
    (wf : Nat → Bool) (p3 : Segment → Bool) (listing : List String)
    (p4 : String → Bool)
    (h1 : (separate_sources models modelFails).2 = true)
    (h2 : split_audio_pipeline load S wf = []) :
    process_audio models modelFails load S wf p3 listing p4 =
      .ok { success := false, phase3Calls := [], phase3Raised := []
            phase4Calls := [], phase4Raised := [] } := by
  simp [process_audio, h1, h2]

/-- C2 witness: a file that fails to decode (zero segments) with the
default model list: the run is failed, Phases 3 and 4 are never
invoked. -/
theorem C2_witness :
    process_audio ["htdemucs", "mdx_extra_q"] (fun _ => false) none 60
        (fun _ => false) (fun _ => false) ["stray.wav"] (fun _ => false) =
      .ok { success := false, phase3Calls := [], phase3Raised := []
            phase4Calls := [], phase4Raised := [] } :=
  C2_empty_segments_abort ["htdemucs", "mdx_extra_q"] (fun _ => false) none 60
    (fun _ => false) (fun _ => false) ["stray.wav"] (fun _ => false)
    (by decide) (by decide)

/-! ### Claim C9 -/

/-- C9.  Whenever Phase 1 completes, the status returned by
`process_audio` is exactly "the Segmenter returned a non-empty
sequence": the Phase-3 failure oracle `p3`, the Phase-3 output-directory
contents `listing` and the Phase-4 failure oracle `p4` are universally
quantified and absent from the right-hand side, so no Phase-3 or
Phase-4 failure ever changes a run's reported success, and the driver's
final successes/total count reflects segmentation outcomes only. -/
theorem C9_success_iff_segments (models : List String)
    (modelFails : String → Bool) (load : Option (Nat × Nat)) (S : Nat)
    (wf : Nat → Bool) (p3 : Segment → Bool) (listing : List String)
    (p4 : String → Bool)
    (h1 : (separate_sources models modelFails).2 = true) :
    runStatus (process_audio models modelFails load S wf p3 listing p4) =
      some (!(split_audio_pipeline load S wf).isEmpty) := by
  by_cases h : (split_audio_pipeline load S wf).isEmpty <;>
    simp [process_audio, runStatus, h1, h]

/-- C9 witness: a two-minute asset segments into two chunks, and the run
is reported successful even though every Phase-3 and Phase-4 call
fails. -/
theorem C9_witness :
    runStatus (process_audio ["htdemucs", "mdx_extra_q"] (fun _ => false)
        (some (240, 2)) 60 (fun _ => false) (fun _ => true) ["a.wav"]
        (fun _ => true)) = some true := by
  have h := C9_success_iff_segments ["htdemucs", "mdx_extra_q"]
    (fun _ => false) (some (240, 2)) 60 (fun _ => false) (fun _ => true)
    ["a.wav"] (fun _ => true) (by decide)
  rw [h]
  decide

/-! ### Claim C3 -/

/-- C3 counterexample.  The claim says a failing model invocation does
not prevent the invocations for the subsequent identifiers.  With the
default identifier list and a failure of `htdemucs`, the adapter invokes
only `htdemucs`: `mdx_extra_q` is never invoked, and the loop does not
complete (the exception propagates to the caller instead of being
absorbed). -/
theorem C3_counterexample :
    separate_sources ["htdemucs", "mdx_extra_q"] (fun m => m == "htdemucs") =
      (["htdemucs"], false) ∧
    "mdx_extra_q" ∉
      (separate_sources ["htdemucs", "mdx_extra_q"]
        (fun m => m == "htdemucs")).1 := by
  refine ⟨by decide, by decide⟩

/-- C3 amended.  `Phase01.separate_sources` iterates the model
identifiers in caller-supplied order, but a model failure is not
absorbed: the invoked identifiers are exactly the non-failing prefix of
the list plus the first failing identifier, the rest are skipped, and
the loop completes (letting the orchestrator proceed) exactly when no
model in the list fails. -/
theorem C3_amended (models : List String) (fails : String → Bool) :
    (separate_sources models fails).1 =
      models.takeWhile (fun m => !fails m) ++
        (models.dropWhile (fun m => !fails m)).take 1 ∧
    ((separate_sources models fails).2 = true ↔
      ∀ m ∈ models, fails m = false) := by
  induction models with
  | nil => simp [separate_sources]
  | cons m rest ih =>
      by_cases h : fails m <;>
        simp [separate_sources, h, List.takeWhile_cons, List.dropWhile_cons,
          ih.1, ih.2]

/-! ### Claim C4 -/

/-- C4 counterexample.  The claim says a per-segment write failure never
causes the whole split to return an empty sequence.  In the
`Processing_Pipeline.py` variant the write sits inside the function's
single `try`, so with a two-minute asset (240 samples at 2 Hz, `S = 60`,
two segments due) whose first segment write fails, the function returns
`[]` — while the `script_debug.py` variant keeps the surviving second
segment. -/
theorem C4_counterexample :
    split_audio_pipeline (some (240, 2)) 60 (fun i => i == 0) = [] ∧
    split_audio_debug (some (240, 2)) 60 (fun i => i == 0) =
      [{ start := 120, stop := 240, index := 2 }] := by
  refine ⟨by decide, by decide⟩

/-- C4 amended.  The skip-and-continue policy holds only for the
`Custom_with_Vocals/script_debug.py` variant, whose result is exactly
the segments of the non-failing loop iterations; in the
`Processing_Pipeline.py` variant any segment write failure aborts the
split and returns the empty sequence. -/
theorem C4_amended (n sr S : Nat) (wf : Nat → Bool)
    (h : (splitIndices n sr S).any wf = true) :
    split_audio_debug (some (n, sr)) S wf =
      ((splitIndices n sr S).filter (fun i => !wf i)).map (segOf n sr S) ∧
    split_audio_pipeline (some (n, sr)) S wf = [] := by
  constructor
  · simp [split_audio_debug, filterMap_ite_none]
  · simp [split_audio_pipeline, splitLoop_error_of_any n sr S wf _ h]

/-- C4 witness: the same failing first write, applied through the
amended theorem. -/
theorem C4_witness :
    split_audio_debug (some (240, 2)) 60 (fun i => i == 0) =
      ((splitIndices 240 2 60).filter (fun i => !(i == 0))).map
        (segOf 240 2 60) :=
  (C4_amended 240 2 60 (fun i => i == 0) (by decide)).1

/-! ### Claim C5 -/

/-- C5 counterexample.  The claim says a stem of unexpected shape is
warned about and skipped with every recognized sibling still persisted.
In the `Processing_Pipeline.py` adapter there is no shape check: with a
4-dimensional `vocals` stem followed by a well-formed 2-D `drums` stem,
the failing write raises into the function's single handler and nothing
is persisted — the recognized sibling `drums` included — while the
`script_debug.py` adapter persists exactly `drums`. -/
theorem C5_counterexample :
    separate_voices_pipeline
        [("vocals", StemData.array 4), ("drums", StemData.array 2)] = [] ∧
    recognizedShape (StemData.array 2) = true ∧
    separate_voices_debug
        [("vocals", StemData.array 4), ("drums", StemData.array 2)] =
      ["drums"] := by
  refine ⟨by decide, by decide, by decide⟩

/-- C5 amended.  Per-stem skipping holds only for the
`Custom_with_Vocals/script_debug.py` adapter, which persists exactly the
stems of recognized shape, in order; the `Processing_Pipeline.py`
adapter persists only the longest writable prefix of the stem mapping —
everything from the first unwritable stem on is lost. -/
theorem C5_amended (stems : List (String × StemData)) :
    separate_voices_debug stems =
      (stems.filter fun s => recognizedShape s.2).map Prod.fst ∧
    separate_voices_pipeline stems =
      (stems.takeWhile fun s => writeOk s.2).map Prod.fst := by
  constructor
  · simp [separate_voices_debug, filterMap_ite_some]
  · induction stems with
    | nil => rfl
    | cons s rest ih =>
        by_cases h : writeOk s.2
        · obtain ⟨name, d⟩ := s
          simp only [separate_voices_pipeline]
          simp at h
          simp [h, List.takeWhile_cons, ih]
        · obtain ⟨name, d⟩ := s
          simp only [separate_voices_pipeline]
          simp at h
          simp [h, List.takeWhile_cons]

/-! ### Claim C7 -/

/-- C7 counterexample.  The claim says suffix matching is
case-insensitive, so a file named with the audio suffix in upper case is
selected for enhancement.  The Phase-4 filter is Python's
case-sensitive `str.endswith(".wav")`: of the two directory entries only
the lower-case one is selected and `voice.WAV` is skipped. -/
theorem C7_counterexample :
    phase04_select ["voice.WAV", "voice.wav"] = ["voice.wav"] := by decide

/-- C7 amended.  The Phase-4 directory iteration selects exactly the
entries whose names end in the lower-case suffix `.wav`, compared
case-sensitively; a file whose extension differs in letter case is not
enhanced. -/
theorem C7_amended (listing : List String) (f : String) :
    f ∈ phase04_select listing ↔
      f ∈ listing ∧ pyEndswith f ".wav" = true := by
  simp [phase04_select, List.mem_filter]

/-! ### Claim C8 -/

/-- C8 counterexample.  The claim says the exit status is non-zero
exactly when no input files are found, the transcoder is missing, or
model pre-loading fails.  A batch with one input file, FFmpeg present
and the models pre-loaded still exits non-zero when `process_audio`
raises an uncaught exception (Phase 1 has no handler), a fourth
non-zero path the claim excludes. -/
theorem C8_counterexample :
    mainExit { helpFlag := false, ffmpegFound := true,
               audioFiles := ["track.wav"], preloadFails := false,
               runRaises := fun _ => true,
               runSucceeds := fun _ => false } = 1 ∧
    (["track.wav"] : List String) ≠ [] := by
  refine ⟨by decide, by decide⟩

/-- C8 amended.  The process exits 0 exactly when the help flag is
passed, or FFmpeg is found, at least one input file is found, model
pre-loading succeeds and no per-file run raises an uncaught exception;
every other execution exits non-zero.  The per-file success results
(`runSucceeds`) play no role in the exit status: normal completion
exits 0 even when zero files succeeded. -/
theorem C8_amended (inp : MainInput) :
    (mainExit inp = 0 ↔
      inp.helpFlag = true ∨
        (inp.ffmpegFound = true ∧ inp.audioFiles ≠ [] ∧
          inp.preloadFails = false ∧
          inp.audioFiles.any inp.runRaises = false)) ∧
    ∀ g : String → Bool, mainExit { inp with runSucceeds := g } = mainExit inp := by
  constructor
  · obtain ⟨help, ff, files, pre, rr, rs⟩ := inp
    simp only [mainExit]
    cases help <;> cases ff <;> cases pre <;>
      by_cases hf : files = [] <;>
        by_cases ha : files.any rr = true <;>
          simp_all [List.isEmpty_iff]
  · intro g
    rfl

end AudioPipeline
